import Mathlib

/-!
Verification of the AVIF image-format adapter (`src/imageformats/avif.cpp`,
class `QAVIFHandler`) against its natural-language specification.

The development is a shallow embedding of the adapter:

* the handler object (`Handler`) carries the same mutable fields as the C++
  class (`m_parseState`, `m_quality`, `m_container_width`, `m_container_height`,
  `m_decoder`, `m_current_image`, `m_must_jump_to_next_image`);
* the opaque libavif library is modelled by a `Decoder` holding the list of
  frames of the container together with the decoder's `imageIndex` cursor;
  each `Frame` records the attributes the adapter inspects (dimensions, bit
  depth, alpha plane, YUV400 subtype, transform metadata) plus two oracle
  bits: `decodeOk` (does `avifDecoderNextImage` / `avifDecoderNthImage`
  succeed on this frame) and `frameOk` (do the pixel-buffer allocation and
  `avifImageYUVToRGB` inside `decode_one_frame` succeed);
* stateful C++ methods become functions `Handler → ... → result × Handler`;
  crop arithmetic on C `double`s is idealised over `ℚ`;
* a third returned component (a `Bool`) instruments whether the call reached
  the pixel work of `decode_one_frame` (i.e. constructed the host `QImage`
  buffer), which several error-handling claims are about.
-/

/-- Parse state of the handler, enum `ParseAvifState` in `avif_p.h`:
`ParseAvifNotParsed`, `ParseAvifSuccess`, `ParseAvifError`. -/
inductive ParseAvifState
  | notParsed
  | success
  | error
deriving DecidableEq

/-- The `QImage::Format` values appearing in the adapter's decode path. -/
inductive QFormat
  | RGBA64
  | RGBX64
  | RGBA8888
  | RGBX8888
  | ARGB32
  | RGB32
  | Grayscale8
  | Grayscale16
deriving DecidableEq

/-- Clean-aperture (crop) box of a frame: four rational parameters.
Numerators of the offsets are read through an `int32_t` cast in the source,
hence `Int`; the other fields are `uint32_t`, hence `Nat`. -/
structure Clap where
  widthN : Nat
  widthD : Nat
  heightN : Nat
  heightD : Nat
  horizOffN : Int
  horizOffD : Nat
  vertOffN : Int
  vertOffD : Nat
deriving DecidableEq

/-- One frame of the container, as seen through `m_decoder->image`:
the attributes `decode_one_frame` inspects, plus the two oracle bits for the
opaque libavif decode steps. -/
structure Frame where
  width : Nat
  height : Nat
  depth : Nat
  hasAlphaPlane : Bool
  yuv400 : Bool
  clapFlag : Bool
  irotFlag : Bool
  imirFlag : Bool
  clap : Clap
  irotAngle : Nat
  imirAxis : Nat
  decodeOk : Bool
  frameOk : Bool
deriving DecidableEq

/-- Model of the libavif decoder session (`avifDecoder`): the frames of the
parsed container and the current `imageIndex` cursor (`-1` right after
parse/reset, as in libavif). `imageCount` is the length of the frame list. -/
structure Decoder where
  frames : List Frame
  imageIndex : Int
deriving DecidableEq

/-- The decoded host image the adapter keeps in `m_current_image`:
its dimensions and pixel format (the color space is not modelled; it does not
affect control flow, dimensions or format). -/
structure QImg where
  width : Nat
  height : Nat
  format : QFormat
deriving DecidableEq

/-- The mutable fields of `QAVIFHandler`. -/
structure Handler where
  m_parseState : ParseAvifState
  m_quality : Int
  m_container_width : Nat
  m_container_height : Nat
  m_decoder : Option Decoder
  m_current_image : Option QImg
  m_must_jump_to_next_image : Bool
deriving DecidableEq

/-- The byte stream as the libavif parser classifies it: outcome of
`avifPeekCompatibleFileType`, `avifDecoderSetIOMemory`, `avifDecoderParse`,
and the frames the parsed container holds. -/
structure Container where
  compatibleFileType : Bool
  setIOOk : Bool
  parseOk : Bool
  frames : List Frame
deriving DecidableEq

namespace QAVIFHandler

/-- The handler right after construction (`QAVIFHandler::QAVIFHandler`). -/
def initHandler : Handler :=
  { m_parseState := .notParsed
    m_quality := 52
    m_container_width := 0
    m_container_height := 0
    m_decoder := none
    m_current_image := none
    m_must_jump_to_next_image := false }

/-- Host pixel-format selection of `decode_one_frame` (avif.cpp lines
171–199 and 278–307): a first format is chosen for the allocation, then the
final `resultformat` is refined from the same three traits. The final
`m_current_image` has exactly this format, thanks to the trailing
`convertToFormat(resultformat)` (lines 390–394). -/
def selectResultFormat (depth : Nat) (loadalpha yuv400 : Bool) : QFormat :=
  let fmt :=
    if 8 < depth then
      (if loadalpha then QFormat.RGBA64 else QFormat.RGBX64)
    else
      (if loadalpha then QFormat.RGBA8888 else QFormat.RGBX8888)
  if 8 < depth then
    (if loadalpha = false ∧ yuv400 then QFormat.Grayscale16 else fmt)
  else
    (if loadalpha then QFormat.ARGB32
     else if yuv400 then QFormat.Grayscale8 else QFormat.RGB32)

/-- Dimensions after the clean-aperture (crop) stage of `decode_one_frame`
(avif.cpp lines 318–355).  The `double` arithmetic of the source is idealised
over `ℚ`; the C cast `(int)(x + 0.5)` on the nonnegative quantities here is
`Int.floor`.  The crop offsets `offx`/`offy` are not modelled: the source
clamps them into `[0, width - new_width] × [0, height - new_height]`, so the
`copy` rectangle is in bounds and the copied image has exactly the clamped
`new_width × new_height` size regardless of the offsets. -/
def cropDims (f : Frame) (w h : Nat) : Nat × Nat :=
  if f.clapFlag then
    if 0 < f.clap.widthD ∧ 0 < f.clap.heightD ∧ 0 < f.clap.horizOffD ∧ 0 < f.clap.vertOffD then
      let nw : Int := Int.floor ((f.clap.widthN : ℚ) / (f.clap.widthD : ℚ) + 1 / 2)
      let nw : Int := if (w : Int) < nw then (w : Int) else nw
      let nh : Int := Int.floor ((f.clap.heightN : ℚ) / (f.clap.heightD : ℚ) + 1 / 2)
      let nh : Int := if (h : Int) < nh then (h : Int) else nh
      if 0 < nw ∧ 0 < nh then (nw.toNat, nh.toNat) else (w, h)
    else
      -- zero denominator: "ERROR: Wrong values in avifCleanApertureBox",
      -- the crop is skipped and the frame is kept uncropped
      (w, h)
  else (w, h)

/-- Dimensions after the rotation stage (avif.cpp lines 357–373):
`irot.angle` 1 and 3 are 90°/270° rotations and swap width and height,
angle 2 is 180°, anything else leaves the image untouched.  The subsequent
mirror stage (lines 375–388) never changes dimensions. -/
def rotDims (f : Frame) (w h : Nat) : Nat × Nat :=
  if f.irotFlag then
    match f.irotAngle with
    | 1 => (h, w)
    | 2 => (w, h)
    | 3 => (h, w)
    | _ => (w, h)
  else (w, h)

/-- Body of `QAVIFHandler::decode_one_frame` past its `ensureParsed()` guard
(avif.cpp lines 165–398), for a handler whose decoder is `d`.  Returns
(return value, updated handler, whether the host pixel buffer was built).
The frame's `frameOk` oracle bit covers the two failure exits of the body:
`result.isNull()` after allocation and a failing `avifImageYUVToRGB`; both
happen after the buffer construction, hence the `true` third component.
The color-space block (lines 201–273) only tags the result image and cannot
fail the call, so it is not modelled. -/
def decodeOneFrameCore (h : Handler) (d : Decoder) : Bool × Handler × Bool :=
  match d.frames[d.imageIndex.toNat]? with
  | none => (false, h, false)
  | some f =>
    if f.frameOk = false then (false, h, true)
    else
      let fmt := selectResultFormat f.depth f.hasAlphaPlane f.yuv400
      let dims1 := cropDims f f.width f.height
      let dims2 := rotDims f dims1.1 dims1.2
      (true,
       { h with m_current_image := some ⟨dims2.1, dims2.2, fmt⟩
                m_must_jump_to_next_image := false },
       true)

/-- The shared `if (decode_one_frame()) return true; else { m_parseState =
ParseAvifError; return false; }` tail of `ensureDecoder`, `jumpToNextImage`
and `jumpToImage` (avif.cpp lines 148–154, 848–853, 897–902). -/
def finishDecode (h2 : Handler) (d : Decoder) : Bool × Handler × Bool :=
  match decodeOneFrameCore h2 d with
  | (true, h3, al) => (true, h3, al)
  | (false, h3, al) => (false, { h3 with m_parseState := .error }, al)

/-- `QAVIFHandler::decode_one_frame`.  Its leading `ensureParsed()` call
reduces to the `ParseAvifSuccess` test at every call site: all public
entry points run `ensureParsed` first, and `ensureDecoder` sets the state to
`ParseAvifSuccess` before invoking `decode_one_frame`. -/
def decode_one_frame (h : Handler) : Bool × Handler × Bool :=
  match h.m_parseState, h.m_decoder with
  | .success, some d => decodeOneFrameCore h d
  | _, _ => (false, h, false)

/-- Model of `avifDecoderNextImage`: advance the cursor to the next frame;
succeeds iff that frame exists and decodes (`decodeOk`). -/
def decoderNextImage (d : Decoder) : Bool × Decoder :=
  let idx := d.imageIndex + 1
  if idx < 0 then (false, d)
  else
    match d.frames[idx.toNat]? with
    | some f => if f.decodeOk then (true, { d with imageIndex := idx }) else (false, d)
    | none => (false, d)

/-- Model of `avifDecoderNthImage decoder n`: position the cursor on frame
`n`; succeeds iff that frame exists and decodes. -/
def decoderNthImage (d : Decoder) (n : Int) : Bool × Decoder :=
  if n < 0 then (false, d)
  else
    match d.frames[n.toNat]? with
    | some f => if f.decodeOk then (true, { d with imageIndex := n }) else (false, d)
    | none => (false, d)

/-- Model of `avifDecoderReset`: the cursor returns before the first frame. -/
def decoderReset (d : Decoder) : Decoder :=
  { d with imageIndex := -1 }

/-- `QAVIFHandler::ensureDecoder` (avif.cpp lines 82–163).  Returns
(return value, updated handler, whether the pixel buffer was built).
Failure branches mirror the source: incompatible file type, failing
`avifDecoderSetIOMemory`, failing `avifDecoderParse` and a failing first
`avifDecoderNextImage` destroy the decoder and set `ParseAvifError`;
the dimension rejections and a failing `decode_one_frame` set
`ParseAvifError` but keep the decoder, exactly as in the source. -/
def ensureDecoder (h : Handler) (c : Container) : Bool × Handler × Bool :=
  if h.m_decoder.isSome then (true, h, false)
  else if c.compatibleFileType = false then
    (false, { h with m_parseState := .error }, false)
  else if c.setIOOk = false then
    (false, { h with m_parseState := .error }, false)
  else if c.parseOk = false then
    (false, { h with m_parseState := .error }, false)
  else
    match decoderNextImage { frames := c.frames, imageIndex := -1 } with
    | (false, _) => (false, { h with m_parseState := .error }, false)
    | (true, d1) =>
      match d1.frames[d1.imageIndex.toNat]? with
      | none => (false, { h with m_parseState := .error }, false)
      | some f =>
        let h1 := { h with m_container_width := f.width
                           m_container_height := f.height
                           m_decoder := some d1 }
        if 32768 < f.width ∨ 32768 < f.height then
          (false, { h1 with m_parseState := .error }, false)
        else if f.width = 0 ∨ f.height = 0 then
          (false, { h1 with m_parseState := .error }, false)
        else
          let h2 := { h1 with m_parseState := .success }
          finishDecode h2 d1

/-- `QAVIFHandler::ensureParsed` (avif.cpp lines 68–80). -/
def ensureParsed (h : Handler) (c : Container) : Bool × Handler × Bool :=
  match h.m_parseState with
  | .success => (true, h, false)
  | .error => (false, h, false)
  | .notParsed => ensureDecoder h c

/-- `QAVIFHandler::imageCount` (avif.cpp lines 790–800); `const` in C++ but
able to mutate through `ensureParsed`'s `const_cast`, hence the returned
handler.  The `none` decoder under a succeeding `ensureParsed` is
unreachable. -/
def imageCount (h : Handler) (c : Container) : Int × Handler :=
  match ensureParsed h c with
  | (false, h1, _) => (0, h1)
  | (true, h1, _) =>
    match h1.m_decoder with
    | some d => if 1 ≤ d.frames.length then ((d.frames.length : Int), h1) else (0, h1)
    | none => (0, h1)

/-- The tail shared verbatim between `jumpToNextImage` and `jumpToImage`
(avif.cpp lines 829–853 and 878–902): given the result `r` of the decoding
step (`avifDecoderNextImage` resp. `avifDecoderNthImage`), fail into the
Error state on a decode error or a container-dimension mismatch, otherwise
run `decode_one_frame`. -/
def jumpFinish (h1 : Handler) (r : Bool × Decoder) : Bool × Handler × Bool :=
  match r with
  | (false, d2) => (false, { h1 with m_decoder := some d2, m_parseState := .error }, false)
  | (true, d2) =>
    let h2 := { h1 with m_decoder := some d2 }
    match d2.frames[d2.imageIndex.toNat]? with
    | none => (false, { h2 with m_parseState := .error }, false)
    | some f =>
      if f.width ≠ h2.m_container_width ∨ f.height ≠ h2.m_container_height then
        (false, { h2 with m_parseState := .error }, false)
      else
        finishDecode h2 d2

/-- Body of `QAVIFHandler::jumpToNextImage` past its `ensureParsed()` guard
(avif.cpp lines 815–854), for a handler `h1` whose decoder is `d`. -/
def jumpToNextImageCore (h1 : Handler) (d : Decoder) : Bool × Handler × Bool :=
  if (d.frames.length : Int) < 2 then (true, h1, false)
  else
    let d1 := if (d.frames.length : Int) - 1 ≤ d.imageIndex then decoderReset d else d
    jumpFinish h1 (decoderNextImage d1)

/-- `QAVIFHandler::jumpToNextImage` (avif.cpp lines 815–854). -/
def jumpToNextImage (h : Handler) (c : Container) : Bool × Handler × Bool :=
  match ensureParsed h c with
  | (false, h1, a) => (false, h1, a)
  | (true, h1, _) =>
    match h1.m_decoder with
    | none => (false, h1, false)
    | some d => jumpToNextImageCore h1 d

/-- `QAVIFHandler::jumpToImage` (avif.cpp lines 856–903).  The
`imageNumber == m_decoder->imageCount` branch is kept although it is dead
code (the preceding bounds check already excludes it). -/
def jumpToImageCore (h1 : Handler) (d : Decoder) (n : Int) : Bool × Handler × Bool :=
  if (d.frames.length : Int) < 2 then
    (if n = 0 then (true, h1, false) else (false, h1, false))
  else if n < 0 ∨ (d.frames.length : Int) ≤ n then (false, h1, false)
  else if n = (d.frames.length : Int) then (true, h1, false)
  else jumpFinish h1 (decoderNthImage d n)

/-- `QAVIFHandler::jumpToImage` (avif.cpp lines 856–903): the `ensureParsed`
guard and decoder extraction around `jumpToImageCore`. -/
def jumpToImage (h : Handler) (c : Container) (n : Int) : Bool × Handler × Bool :=
  match ensureParsed h c with
  | (false, h1, a) => (false, h1, a)
  | (true, h1, _) =>
    match h1.m_decoder with
    | none => (false, h1, false)
    | some d => jumpToImageCore h1 d n

/-- `QAVIFHandler::read` (avif.cpp lines 400–415).  The third component is
the image written through the `QImage *` out-parameter (`none` when the call
returns before writing it). -/
def read (h : Handler) (c : Container) : Bool × Handler × Option QImg :=
  match ensureParsed h c with
  | (false, h1, _) => (false, h1, none)
  | (true, h1, _) =>
    let h2 := if h1.m_must_jump_to_next_image then (jumpToNextImage h1 c).2.1 else h1
    match imageCount h2 c with
    | (cnt, h3) =>
      if 2 ≤ cnt then (true, { h3 with m_must_jump_to_next_image := true }, h2.m_current_image)
      else (true, h3, h2.m_current_image)

/-- `QAVIFHandler::currentImageNumber` (avif.cpp lines 802–813). -/
def currentImageNumber (h : Handler) : Int :=
  if h.m_parseState = .notParsed then -1
  else if h.m_parseState = .error then 0
  else
    match h.m_decoder with
    | none => 0
    | some d => d.imageIndex

/-- Quality branch of `QAVIFHandler::setOption` (avif.cpp lines 768–783):
`m_quality = value.toInt()`, clamped above to 100 and corrected below 0 to
the default 52. -/
def setOptionQuality (h : Handler) (v : Int) : Handler :=
  let q := v
  let q := if 100 < q then 100 else if q < 0 then 52 else q
  { h with m_quality := q }

/-- Quality branch of `QAVIFHandler::option` (avif.cpp lines 744–748):
returns `m_quality` before any parsing is attempted. -/
def optionQuality (h : Handler) : Int :=
  h.m_quality

/-- `qBound(lo, v, hi) = qMax(lo, qMin(hi, v))` from Qt. -/
def qBound (lo v hi : Int) : Int :=
  max lo (min v hi)

/-- libavif constant `AVIF_QUANTIZER_WORST_QUALITY`. -/
def AVIF_QUANTIZER_WORST_QUALITY : Int := 63

/-- libavif constant `AVIF_QUANTIZER_LOSSLESS`. -/
def AVIF_QUANTIZER_LOSSLESS : Int := 0

/-- The quantizer fields of the `avifEncoder` configured by
`QAVIFHandler::write`. -/
structure EncoderCfg where
  minQuantizer : Int
  maxQuantizer : Int
  minQuantizerAlpha : Int
  maxQuantizerAlpha : Int
deriving DecidableEq

/-- `int maxQuantizer = AVIF_QUANTIZER_WORST_QUALITY * (100 - qBound(0, m_quality, 100)) / 100;`
(avif.cpp line 429).  Both operands of the C `/` are nonnegative here, so C
truncating division agrees with Lean's `Int` division. -/
def writeMaxQuantizer (quality : Int) : Int :=
  AVIF_QUANTIZER_WORST_QUALITY * (100 - qBound 0 quality 100) / 100

/-- `minQuantizer` after the quality-settings block of `write`
(avif.cpp lines 430, 477–483): initialised to 0, set to `maxQuantizer - 20`
when `maxQuantizer > 20`. -/
def writeMinQuantizer (quality : Int) : Int :=
  if 20 < writeMaxQuantizer quality then writeMaxQuantizer quality - 20 else 0

/-- `maxQuantizerAlpha` after the quality-settings block of `write`
(avif.cpp lines 431, 477–483): initialised to 0, set to `maxQuantizer - 40`
when `maxQuantizer > 20` and `maxQuantizer > 40`. -/
def writeMaxQuantizerAlpha (quality : Int) : Int :=
  if 20 < writeMaxQuantizer quality then
    (if 40 < writeMaxQuantizer quality then writeMaxQuantizer quality - 40 else 0)
  else 0

/-- The quantizer fields `QAVIFHandler::write` hands to the encoder
(avif.cpp lines 713–719): `minQuantizer` and `maxQuantizer` always, the two
alpha quantizers only when the input image has an alpha channel (otherwise
they keep the `avifEncoderCreate` defaults, `AVIF_QUANTIZER_LOSSLESS = 0`). -/
def writeEncoderConfig (quality : Int) (hasAlpha : Bool) : EncoderCfg :=
  { minQuantizer := writeMinQuantizer quality
    maxQuantizer := writeMaxQuantizer quality
    minQuantizerAlpha := if hasAlpha then AVIF_QUANTIZER_LOSSLESS else AVIF_QUANTIZER_LOSSLESS
    maxQuantizerAlpha := if hasAlpha then writeMaxQuantizerAlpha quality else AVIF_QUANTIZER_LOSSLESS }

/-- A `QIODevice` positioned inside a byte stream: `peek` looks at upcoming
bytes without moving the position, `readAll` would consume them. -/
structure IODevice where
  data : List Nat
  pos : Nat
deriving DecidableEq

/-- `device->peek(n)`: up to `n` upcoming bytes; the device is returned
unchanged alongside, making consumption (or its absence) observable. -/
def peek (dev : IODevice) (n : Nat) : List Nat × IODevice :=
  ((dev.data.drop dev.pos).take n, dev)

/-- The static `QAVIFHandler::canRead(QIODevice *)` (avif.cpp lines 48–66),
parameterised by the opaque `avifPeekCompatibleFileType` signature test.
Returns (return value, device afterwards, whether the signature test ran). -/
def canReadDevice (sig : List Nat → Bool) (dev : Option IODevice) :
    Bool × Option IODevice × Bool :=
  match dev with
  | none => (false, none, false)
  | some d =>
    let r := peek d 144
    if r.1.length < 12 then (false, some r.2, false)
    else (sig r.1, some r.2, true)

/-- `DBL_MIN` from `<cfloat>`: the smallest positive normalised `double`,
`2 ^ (-1022)`, exact as a rational. -/
def DBL_MIN_Q : ℚ := 1 / 2 ^ 1022

/-- `qBound` on `qreal` chromaticity coordinates, idealised over `ℚ`. -/
def qBoundQ (lo v hi : ℚ) : ℚ :=
  max lo (min v hi)

/-- `QAVIFHandler::CompatibleChromacity` (avif.cpp lines 935–945), the
`double` arithmetic idealised over `ℚ`:
`chrX` is clamped to `[0, 1]`, `chrY` to `[DBL_MIN, 1]`, and when the
clamped pair sums to more than 1 the first coordinate is replaced by
`1 - chrY`. -/
def CompatibleChromacity (chrX chrY : ℚ) : ℚ × ℚ :=
  let x := qBoundQ 0 chrX 1
  let y := qBoundQ DBL_MIN_Q chrY 1
  if 1 < x + y then (1 - y, y) else (x, y)

/-- A minimal well-behaved 1×1 frame used as concrete test input. -/
def frameA : Frame :=
  { width := 1, height := 1, depth := 8, hasAlphaPlane := false, yuv400 := false,
    clapFlag := false, irotFlag := false, imirFlag := false,
    clap := ⟨0, 1, 0, 1, 0, 1, 0, 1⟩, irotAngle := 0, imirAxis := 0,
    decodeOk := true, frameOk := true }

/-- An oversized frame (width 40000 > 32768). -/
def frameBig : Frame :=
  { frameA with width := 40000, height := 100 }

/-- A 2×1 frame carrying a clean-aperture transform with zero denominators
together with a 90° rotation transform. -/
def fr7 : Frame :=
  { frameA with
    width := 2, height := 1,
    clapFlag := true,
    clap := { widthN := 1, widthD := 0, heightN := 1, heightD := 0,
              horizOffN := 0, horizOffD := 0, vertOffN := 0, vertOffD := 0 },
    irotFlag := true, irotAngle := 1 }

/-- A single-frame container. -/
def container1 : Container :=
  { compatibleFileType := true, setIOOk := true, parseOk := true, frames := [frameA] }

/-- A two-frame animation container. -/
def container2 : Container :=
  { container1 with frames := [frameA, frameA] }

/-- A container whose only frame is oversized. -/
def containerBig : Container :=
  { container1 with frames := [frameBig] }

/-- A handler that has successfully parsed `container1`. -/
def handler1 : Handler :=
  { initHandler with
    m_parseState := .success,
    m_container_width := 1, m_container_height := 1,
    m_decoder := some ⟨[frameA], 0⟩,
    m_current_image := some ⟨1, 1, QFormat.RGB32⟩ }

/-- A handler that has successfully parsed `container2`. -/
def handler2 : Handler :=
  { initHandler with
    m_parseState := .success,
    m_container_width := 1, m_container_height := 1,
    m_decoder := some ⟨[frameA, frameA], 0⟩,
    m_current_image := some ⟨1, 1, QFormat.RGB32⟩ }

/-- A handler in the terminal `ParseAvifError` state. -/
def handlerErr : Handler :=
  { initHandler with m_parseState := .error }

/-- A handler positioned on `fr7`. -/
def handler7 : Handler :=
  { initHandler with
    m_parseState := .success,
    m_container_width := 2, m_container_height := 1,
    m_decoder := some ⟨[fr7], 0⟩ }

end QAVIFHandler

open QAVIFHandler

/-- C1: for every decoded frame, the host pixel format is a function of the
frame's bit depth, alpha presence and grayscale (YUV400) subtype alone —
witnessed by `selectResultFormat` taking only those three traits — and it
follows the spec table: depth > 8 with alpha → 16-bit RGBA (`Format_RGBA64`);
depth > 8, no alpha, grayscale → 16-bit grayscale (`Format_Grayscale16`);
depth > 8, no alpha, non-grayscale → 16-bit padded RGB (`Format_RGBX64`);
depth ≤ 8 with alpha → 8-bit RGBA (`Format_ARGB32`); depth ≤ 8, no alpha,
grayscale → 8-bit grayscale (`Format_Grayscale8`); depth ≤ 8, no alpha,
non-grayscale → 8-bit RGB (`Format_RGB32`). -/
theorem avif_C1 (depth : Nat) (alpha gray : Bool) :
    QAVIFHandler.selectResultFormat depth alpha gray =
      if 8 < depth then
        (if alpha then QFormat.RGBA64
         else if gray then QFormat.Grayscale16 else QFormat.RGBX64)
      else
        (if alpha then QFormat.ARGB32
         else if gray then QFormat.Grayscale8 else QFormat.RGB32) := by
  unfold QAVIFHandler.selectResultFormat
  by_cases hd : 8 < depth <;> cases alpha <;> cases gray <;> simp [hd]

/-- C4: after `setOption(Quality, v)`, `option(Quality)` yields `v` itself for
every `v` in `[0, 100]`, exactly 100 for every `v > 100`, and the documented
default 52 for every `v < 0`. -/
theorem avif_C4 (h : Handler) (v : Int) :
    (0 ≤ v → v ≤ 100 → optionQuality (setOptionQuality h v) = v) ∧
    (100 < v → optionQuality (setOptionQuality h v) = 100) ∧
    (v < 0 → optionQuality (setOptionQuality h v) = 52) := by
  refine ⟨fun h0 h100 => ?_, fun hbig => ?_, fun hneg => ?_⟩ <;>
    simp only [optionQuality, setOptionQuality] <;> split_ifs <;> omega

/-- C4 witness: quality 150 reads back as 100, quality -5 as 52, and the
in-range quality 52 as itself. -/
theorem avif_C4_witness :
    optionQuality (setOptionQuality initHandler 150) = 100 ∧
    optionQuality (setOptionQuality initHandler (-5)) = 52 ∧
    optionQuality (setOptionQuality initHandler 52) = 52 :=
  ⟨(avif_C4 initHandler 150).2.1 (by norm_num),
   (avif_C4 initHandler (-5)).2.2 (by norm_num),
   (avif_C4 initHandler 52).1 (by norm_num) (by norm_num)⟩

/-- C5: for every stored quality value, `write` computes
`maxQuantizer = worstQuantizer * (100 - clamp(q, 0, 100)) / 100` (integer
division), `minQuantizer = max(0, maxQuantizer - 20)`, and — for images with
an alpha channel — `maxQuantizerAlpha = max(0, maxQuantizer - 40)`; these are
the quantizer values handed to the encoder (`writeEncoderConfig`). -/
theorem avif_C5 (q : Int) (alpha : Bool) :
    (writeEncoderConfig q alpha).maxQuantizer
        = AVIF_QUANTIZER_WORST_QUALITY * (100 - qBound 0 q 100) / 100 ∧
    (writeEncoderConfig q alpha).minQuantizer
        = max 0 ((writeEncoderConfig q alpha).maxQuantizer - 20) ∧
    (writeEncoderConfig q true).maxQuantizerAlpha
        = max 0 ((writeEncoderConfig q true).maxQuantizer - 40) := by
  refine ⟨rfl, ?_, ?_⟩ <;>
    simp only [writeEncoderConfig, writeMinQuantizer, writeMaxQuantizerAlpha, if_true] <;>
    rw [max_def] <;> split_ifs <;> omega

/-- C8 counterexample: the claim says that when the two clamped coordinates
sum to more than 1, `CompatibleChromacity` adjusts the **second** coordinate
down.  At input (1, 1) the clamped pair is (1, 1) with sum 2 > 1, yet the
function returns (0, 1): the second coordinate is left at its clamped value 1
(not adjusted down) and the **first** coordinate is adjusted instead. -/
theorem avif_C8_counterexample :
    CompatibleChromacity 1 1 = (0, 1) ∧
    1 < qBoundQ 0 (1 : ℚ) 1 + qBoundQ DBL_MIN_Q 1 1 ∧
    qBoundQ DBL_MIN_Q 1 1 = 1 := by
  have h1 : qBoundQ 0 (1 : ℚ) 1 = 1 := by
    rw [qBoundQ, min_self]
    exact max_eq_right (by norm_num)
  have h2 : qBoundQ DBL_MIN_Q 1 1 = 1 := by
    rw [qBoundQ, min_self]
    exact max_eq_right (by rw [DBL_MIN_Q]; norm_num)
  refine ⟨?_, by rw [h1, h2]; norm_num, h2⟩
  simp only [CompatibleChromacity, h1, h2]
  norm_num

/-- C8 amended: `CompatibleChromacity` clamps the first coordinate to
`[0, 1]` and the second to the near-zero range `[DBL_MIN, 1]`; when the two
clamped coordinates sum to more than 1 it adjusts the **first** coordinate
down to `1 - second` (the second is always returned at its clamped value),
so that the returned pair sums to at most 1. -/
theorem avif_C8_amended (x y : ℚ) :
    (CompatibleChromacity x y).2 = qBoundQ DBL_MIN_Q y 1 ∧
    (CompatibleChromacity x y).1 =
      (if 1 < qBoundQ 0 x 1 + qBoundQ DBL_MIN_Q y 1 then 1 - qBoundQ DBL_MIN_Q y 1
       else qBoundQ 0 x 1) ∧
    0 ≤ (CompatibleChromacity x y).1 ∧ (CompatibleChromacity x y).1 ≤ 1 ∧
    DBL_MIN_Q ≤ (CompatibleChromacity x y).2 ∧ (CompatibleChromacity x y).2 ≤ 1 ∧
    (CompatibleChromacity x y).1 + (CompatibleChromacity x y).2 ≤ 1 := by
  have hdm1 : DBL_MIN_Q ≤ (1 : ℚ) := by rw [DBL_MIN_Q]; norm_num
  have hdm0 : 0 < DBL_MIN_Q := by rw [DBL_MIN_Q]; norm_num
  have hx0 : 0 ≤ qBoundQ 0 x 1 := le_max_left _ _
  have hx1 : qBoundQ 0 x 1 ≤ 1 := max_le (by norm_num) (min_le_right _ _)
  have hy0 : DBL_MIN_Q ≤ qBoundQ DBL_MIN_Q y 1 := le_max_left _ _
  have hy1 : qBoundQ DBL_MIN_Q y 1 ≤ 1 := max_le hdm1 (min_le_right _ _)
  simp only [CompatibleChromacity]
  split_ifs with hs <;>
    refine ⟨rfl, rfl, ?_, ?_, ?_, ?_, ?_⟩ <;> dsimp only <;> linarith

/-- C9: the static capability probe returns false when the device is null or
fewer than 12 bytes can be peeked; it never consumes bytes (the device comes
back unchanged) and looks at no more than 144 bytes; the format-signature
check runs exactly when at least 12 peeked bytes are available, and then on
the peeked (at most 144 byte) prefix. -/
theorem avif_C9 (sig : List Nat → Bool) (dev : Option IODevice) :
    (canReadDevice sig dev).2.1 = dev ∧
    (dev = none → (canReadDevice sig dev).1 = false) ∧
    (∀ d : IODevice, dev = some d → ((d.data.drop d.pos).take 144).length < 12 →
      (canReadDevice sig dev).1 = false ∧ (canReadDevice sig dev).2.2 = false) ∧
    (∀ d : IODevice, dev = some d → 12 ≤ ((d.data.drop d.pos).take 144).length →
      (canReadDevice sig dev).2.2 = true ∧
      (canReadDevice sig dev).1 = sig ((d.data.drop d.pos).take 144)) ∧
    (∀ d : IODevice, dev = some d → ((d.data.drop d.pos).take 144).length ≤ 144) := by
  cases dev with
  | none => simp [canReadDevice]
  | some d =>
    refine ⟨?_, ?_, ?_, ?_, ?_⟩
    · simp only [canReadDevice, peek]
      split_ifs <;> rfl
    · intro hc
      cases hc
    · intro d2 hd2 hlen
      cases hd2
      simp only [canReadDevice, peek]
      rw [if_pos hlen]
      exact ⟨rfl, rfl⟩
    · intro d2 hd2 hlen
      cases hd2
      simp only [canReadDevice, peek]
      rw [if_neg (by omega)]
      exact ⟨rfl, rfl⟩
    · intro d2 hd2
      cases hd2
      simp only [List.length_take]
      omega

/-- C9 witness: on a device holding only 11 bytes, `canRead` returns false,
does not attempt the signature check, and leaves the device untouched. -/
theorem avif_C9_witness :
    ((canReadDevice (fun l => 12 ≤ l.length)
        (some ⟨[1, 2, 3, 4, 5, 6, 7, 8, 9, 10, 11], 0⟩)).1 = false ∧
     (canReadDevice (fun l => 12 ≤ l.length)
        (some ⟨[1, 2, 3, 4, 5, 6, 7, 8, 9, 10, 11], 0⟩)).2.2 = false) ∧
    (canReadDevice (fun l => 12 ≤ l.length)
        (some ⟨[1, 2, 3, 4, 5, 6, 7, 8, 9, 10, 11], 0⟩)).2.1 =
      some ⟨[1, 2, 3, 4, 5, 6, 7, 8, 9, 10, 11], 0⟩ :=
  ⟨(avif_C9 (fun l => 12 ≤ l.length) (some ⟨[1, 2, 3, 4, 5, 6, 7, 8, 9, 10, 11], 0⟩)).2.2.1
      ⟨[1, 2, 3, 4, 5, 6, 7, 8, 9, 10, 11], 0⟩ rfl (by decide),
   (avif_C9 (fun l => 12 ≤ l.length) (some ⟨[1, 2, 3, 4, 5, 6, 7, 8, 9, 10, 11], 0⟩)).1⟩

/-- C10: on a successfully parsed container with fewer than 2 frames,
`jumpToImage n` returns true exactly for `n = 0` and false for every other
`n`; in both cases it performs no decoding (third component false), leaves
the handler — hence the current frame — unchanged, and stays in the Success
state (the returned handler is the input handler). -/
theorem avif_C10 (h : Handler) (c : Container) (d : Decoder) (n : Int)
    (hs : h.m_parseState = .success) (hd : h.m_decoder = some d)
    (hlen : d.frames.length < 2) :
    jumpToImage h c n = ((if n = 0 then true else false), h, false) := by
  have hl : ((d.frames.length : Int) < 2) := by exact_mod_cast hlen
  simp only [jumpToImage, ensureParsed, hs, hd, jumpToImageCore]
  rw [if_pos hl]
  split_ifs <;> rfl

/-- C10 witness: on the parsed single-frame `handler1`, `jumpToImage 0`
returns true and `jumpToImage 3` returns false, both leaving the handler
untouched and performing no decode. -/
theorem avif_C10_witness :
    jumpToImage handler1 container1 0 = (true, handler1, false) ∧
    jumpToImage handler1 container1 3 = (false, handler1, false) := by
  constructor
  · have := avif_C10 handler1 container1 ⟨[frameA], 0⟩ 0 rfl rfl (by decide)
    simpa using this
  · have := avif_C10 handler1 container1 ⟨[frameA], 0⟩ 3 rfl rfl (by decide)
    simpa using this

/-- C3: when the first decoded frame of a container reports a dimension above
32768 or a zero dimension, parsing fails: `ensureParsed` returns false, the
handler enters the terminal `ParseAvifError` state, and the host pixel
buffer is never built (`decode_one_frame` is not reached). -/
theorem avif_C3 (h : Handler) (c : Container) (f : Frame) (fs : List Frame)
    (hps : h.m_parseState = .notParsed) (hdec : h.m_decoder = none)
    (hcf : c.compatibleFileType = true) (hio : c.setIOOk = true)
    (hpar : c.parseOk = true) (hfr : c.frames = f :: fs) (hok : f.decodeOk = true)
    (hbad : 32768 < f.width ∨ 32768 < f.height ∨ f.width = 0 ∨ f.height = 0) :
    (ensureParsed h c).1 = false ∧
    (ensureParsed h c).2.1.m_parseState = .error ∧
    (ensureParsed h c).2.2 = false := by
  have hni : decoderNextImage { frames := c.frames, imageIndex := -1 }
      = (true, { frames := c.frames, imageIndex := 0 }) := by
    simp [decoderNextImage, hfr, hok]
  have hget : ({ frames := c.frames, imageIndex := 0 } : Decoder).frames[((0 : Int)).toNat]?
      = some f := by
    simp [hfr]
  simp only [ensureParsed, hps, ensureDecoder, hdec, Option.isSome_none, Bool.false_eq_true,
    if_false, hcf, hio, hpar, hni, hget]
  simp only [Bool.true_eq_false, if_false]
  split_ifs with hP hQ
  · exact ⟨rfl, rfl, rfl⟩
  · exact ⟨rfl, rfl, rfl⟩
  · push_neg at hP hQ
    rcases hbad with hb | hb | hb | hb <;> omega

/-- C3 witness: parsing a container whose only frame is 40000×100 fails into
the Error state with no pixel buffer built. -/
theorem avif_C3_witness :
    (ensureParsed initHandler containerBig).1 = false ∧
    (ensureParsed initHandler containerBig).2.1.m_parseState = .error ∧
    (ensureParsed initHandler containerBig).2.2 = false :=
  avif_C3 initHandler containerBig frameBig [] rfl rfl rfl rfl rfl rfl rfl
    (by norm_num [frameBig, frameA])

/-- `decode_one_frame` only ever touches `m_current_image` and the
must-advance flag: parse state, decoder and container dimensions survive. -/
theorem decodeOneFrameCore_preserves (h : Handler) (d : Decoder) :
    (decodeOneFrameCore h d).2.1.m_parseState = h.m_parseState ∧
    (decodeOneFrameCore h d).2.1.m_decoder = h.m_decoder ∧
    (decodeOneFrameCore h d).2.1.m_container_width = h.m_container_width ∧
    (decodeOneFrameCore h d).2.1.m_container_height = h.m_container_height := by
  unfold decodeOneFrameCore
  split
  · exact ⟨rfl, rfl, rfl, rfl⟩
  · dsimp only
    split_ifs <;> exact ⟨rfl, rfl, rfl, rfl⟩

/-- `finishDecode` fails into the Error state; on success it preserves the
parse state, decoder and container dimensions of the handler it was given. -/
theorem finishDecode_state (h2 : Handler) (d : Decoder) :
    ((finishDecode h2 d).1 = false → (finishDecode h2 d).2.1.m_parseState = .error) ∧
    ((finishDecode h2 d).1 = true →
      (finishDecode h2 d).2.1.m_parseState = h2.m_parseState ∧
      (finishDecode h2 d).2.1.m_decoder = h2.m_decoder ∧
      (finishDecode h2 d).2.1.m_container_width = h2.m_container_width ∧
      (finishDecode h2 d).2.1.m_container_height = h2.m_container_height) := by
  unfold finishDecode
  have hp := decodeOneFrameCore_preserves h2 d
  rcases hcd : decodeOneFrameCore h2 d with ⟨b, h3, al⟩
  rw [hcd] at hp
  cases b
  · exact ⟨fun _ => rfl, fun ht => by simp at ht⟩
  · exact ⟨fun hf => by simp at hf, fun _ => hp⟩

/-- A failing `jumpFinish` sets `ParseAvifError`. -/
theorem jumpFinish_false_state (h1 : Handler) (r : Bool × Decoder) :
    (jumpFinish h1 r).1 = false → (jumpFinish h1 r).2.1.m_parseState = .error := by
  rcases r with ⟨b, d2⟩
  cases b
  · intro _; rfl
  · unfold jumpFinish
    dsimp only
    split
    · intro _; rfl
    · split_ifs with hdim
      · intro _; rfl
      · exact (finishDecode_state _ _).1

/-- Every failing exit of `ensureDecoder` sets `ParseAvifError`. -/
theorem ensureDecoder_ok_or_error (h : Handler) (c : Container) :
    (ensureDecoder h c).1 = true ∨ (ensureDecoder h c).2.1.m_parseState = .error := by
  unfold ensureDecoder
  split_ifs with h1 h2 h3 h4
  · exact Or.inl rfl
  · exact Or.inr rfl
  · exact Or.inr rfl
  · exact Or.inr rfl
  · split
    · exact Or.inr rfl
    · split
      · exact Or.inr rfl
      · dsimp only
        split_ifs with hd1 hd2
        · exact Or.inr rfl
        · exact Or.inr rfl
        · rcases hb : (finishDecode _ _).1 with _ | _
          · exact Or.inr ((finishDecode_state _ _).1 hb)
          · exact Or.inl rfl

/-- A succeeding `ensureDecoder` on a fresh handler (no decoder yet) leaves
the handler in the Success state with a decoder installed. -/
theorem ensureDecoder_true (h : Handler) (c : Container) (hdec : h.m_decoder = none) :
    (ensureDecoder h c).1 = true →
    (ensureDecoder h c).2.1.m_parseState = .success ∧
    (ensureDecoder h c).2.1.m_decoder.isSome = true := by
  unfold ensureDecoder
  rw [hdec]
  simp only [Option.isSome_none, Bool.false_eq_true, if_false]
  split_ifs with h2 h3 h4
  · intro hf; simp at hf
  · intro hf; simp at hf
  · intro hf; simp at hf
  · split
    · intro hf; simp at hf
    · split
      · intro hf; simp at hf
      · try dsimp only
        split_ifs with hd1 hd2
        · intro hf; simp at hf
        · intro hf; simp at hf
        · intro ht
          obtain ⟨hst, hdc, _, _⟩ := (finishDecode_state _ _).2 ht
          refine ⟨by rw [hst], ?_⟩
          rw [hdc]
          rfl

/-- A failing `jumpToNextImageCore` sets `ParseAvifError`. -/
theorem jumpToNextImageCore_false_state (h1 : Handler) (d : Decoder) :
    (jumpToNextImageCore h1 d).1 = false →
    (jumpToNextImageCore h1 d).2.1.m_parseState = .error := by
  unfold jumpToNextImageCore
  split_ifs with hl hr
  · intro hf; simp at hf
  · exact jumpFinish_false_state h1 _
  · exact jumpFinish_false_state h1 _

/-- C2 amended: once the parse state is Error it stays Error — every
subsequent `ensureParsed`, `read`, `jumpToNextImage` and `jumpToImage`
returns false, `imageCount` returns 0, and no such call changes the handler.
A failed frame advance (`jumpToNextImage` returning false) is a one-way
transition into this terminal Error state.  A failed `jumpToImage` splits:
when it is rejected by its index validation on an animation, or by the
single-frame check (`imageCount < 2` with `n ≠ 0`), it merely returns false
and leaves the handler unchanged in the Success state; when it fails after
index validation (in-range `n`, so a decode failure or a dimension mismatch
inside `jumpFinish`), it too is a one-way transition into Error.  (The
well-formedness hypotheses say a Success handler has a decoder and a
NotParsed handler does not, which hold of every reachable handler.) -/
theorem avif_C2_amended (h : Handler) (c : Container) (n : Int)
    (hwf1 : h.m_parseState = .success → h.m_decoder.isSome = true)
    (hwf2 : h.m_parseState = .notParsed → h.m_decoder = none) :
    (h.m_parseState = .error →
      ensureParsed h c = (false, h, false) ∧
      read h c = (false, h, none) ∧
      jumpToNextImage h c = (false, h, false) ∧
      jumpToImage h c n = (false, h, false) ∧
      imageCount h c = (0, h)) ∧
    ((jumpToNextImage h c).1 = false → (jumpToNextImage h c).2.1.m_parseState = .error) ∧
    (∀ d : Decoder, h.m_parseState = .success → h.m_decoder = some d →
      2 ≤ d.frames.length → (n < 0 ∨ (d.frames.length : Int) ≤ n) →
      jumpToImage h c n = (false, h, false)) ∧
    (∀ d : Decoder, h.m_parseState = .success → h.m_decoder = some d →
      2 ≤ d.frames.length → 0 ≤ n → n < (d.frames.length : Int) →
      (jumpToImage h c n).1 = false →
      (jumpToImage h c n).2.1.m_parseState = .error) ∧
    (∀ d : Decoder, h.m_parseState = .success → h.m_decoder = some d →
      d.frames.length < 2 → n ≠ 0 →
      jumpToImage h c n = (false, h, false)) := by
  refine ⟨?_, ?_, ?_, ?_, ?_⟩
  · intro he
    refine ⟨?_, ?_, ?_, ?_, ?_⟩ <;>
      simp only [ensureParsed, QAVIFHandler.read, jumpToNextImage, jumpToImage, imageCount, he]
  · rcases hps : h.m_parseState with _ | _ | _
    · have hdec := hwf2 hps
      simp only [jumpToNextImage, ensureParsed, hps]
      have hoe := ensureDecoder_ok_or_error h c
      have htrue := ensureDecoder_true h c hdec
      rcases hed : ensureDecoder h c with ⟨b, h1, a⟩
      rw [hed] at hoe htrue
      cases b
      · intro _
        rcases hoe with hx | hx
        · simp at hx
        · exact hx
      · obtain ⟨hst, hsm⟩ := htrue rfl
        dsimp only
        rcases hmd : h1.m_decoder with _ | d
        · rw [hmd] at hsm
          simp at hsm
        · exact jumpToNextImageCore_false_state h1 d
    · have hsm := hwf1 hps
      rcases hmd : h.m_decoder with _ | d
      · rw [hmd] at hsm
        simp at hsm
      · simp only [jumpToNextImage, ensureParsed, hps, hmd]
        exact jumpToNextImageCore_false_state h d
    · simp only [jumpToNextImage, ensureParsed, hps]
      intro _
      trivial
  · intro d hps hmd hlen hrange
    have hl2 : ¬ ((d.frames.length : Int) < 2) := by omega
    simp only [jumpToImage, ensureParsed, hps, hmd, jumpToImageCore]
    rw [if_neg hl2, if_pos hrange]
  · intro d hps hmd hlen h0 hlt
    have heq : jumpToImage h c n = jumpFinish h (decoderNthImage d n) := by
      simp only [jumpToImage, ensureParsed, hps, hmd, jumpToImageCore]
      rw [if_neg (by omega), if_neg (by omega), if_neg (by omega)]
    rw [heq]
    exact jumpFinish_false_state h (decoderNthImage d n)
  · intro d hps hmd hlen hn0
    have hl : ((d.frames.length : Int) < 2) := by exact_mod_cast hlen
    simp only [jumpToImage, ensureParsed, hps, hmd, jumpToImageCore]
    rw [if_pos hl, if_neg hn0]

/-- C2 counterexample: the claim additionally asserts that **any** failed
jump is a one-way transition into the terminal Error state; but on the
parsed two-frame `handler2`, `jumpToImage 5` fails (out-of-range index) yet
the handler is returned unchanged and remains in the Success state. -/
theorem avif_C2_counterexample :
    (jumpToImage handler2 container2 5).1 = false ∧
    (jumpToImage handler2 container2 5).2.1 = handler2 ∧
    handler2.m_parseState = .success ∧
    (jumpToImage handler2 container2 5).2.1.m_parseState ≠ .error := by
  decide

/-- C2 witness: on a handler in the Error state, every listed operation
fails, reports zero frames, and leaves the handler in the Error state. -/
theorem avif_C2_witness :
    ensureParsed handlerErr container1 = (false, handlerErr, false) ∧
    read handlerErr container1 = (false, handlerErr, none) ∧
    jumpToNextImage handlerErr container1 = (false, handlerErr, false) ∧
    jumpToImage handlerErr container1 0 = (false, handlerErr, false) ∧
    imageCount handlerErr container1 = (0, handlerErr) :=
  (avif_C2_amended handlerErr container1 0 (by decide) (by decide)).1 rfl

/-- C7 counterexample: the claim says that with a zero-denominator crop box
the output frame's dimensions equal the pre-crop decoded dimensions.  On
`handler7` the frame `fr7` (2×1, crop flag set with zero denominators) also
carries a 90° rotation transform: `decode_one_frame` succeeds and does skip
the crop, but the produced image is 1×2 — the rotation stage still swapped
the dimensions, so they do not equal the pre-crop decoded 2×1. -/
theorem avif_C7_counterexample :
    (decode_one_frame handler7).1 = true ∧
    Option.map (fun i => (i.width, i.height)) (decode_one_frame handler7).2.1.m_current_image
      = some (1, 2) ∧
    fr7.clapFlag = true ∧ fr7.clap.widthD = 0 ∧
    fr7.width = 2 ∧ fr7.height = 1 ∧ ((1, 2) : Nat × Nat) ≠ (2, 1) := by
  decide

/-- C7 amended: if a frame's clean-aperture flag is set but one of the four
crop-box denominators is zero, `decode_one_frame` skips the crop entirely
(the crop stage is the identity on the dimensions), still succeeds, and the
output frame has the pre-crop decoded dimensions as transformed by the
rotation stage alone (so exactly the pre-crop dimensions whenever no
90°/270° rotation transform is present). -/
theorem avif_C7_amended (h : Handler) (d : Decoder) (f : Frame)
    (hs : h.m_parseState = .success) (hd : h.m_decoder = some d)
    (hget : d.frames[d.imageIndex.toNat]? = some f)
    (hok : f.frameOk = true) (hclap : f.clapFlag = true)
    (hzero : f.clap.widthD = 0 ∨ f.clap.heightD = 0 ∨ f.clap.horizOffD = 0 ∨
             f.clap.vertOffD = 0) :
    cropDims f f.width f.height = (f.width, f.height) ∧
    (decode_one_frame h).1 = true ∧
    (decode_one_frame h).2.1.m_current_image =
      some ⟨(rotDims f f.width f.height).1, (rotDims f f.width f.height).2,
            selectResultFormat f.depth f.hasAlphaPlane f.yuv400⟩ := by
  have hcrop : cropDims f f.width f.height = (f.width, f.height) := by
    unfold cropDims
    rw [if_pos hclap, if_neg ?hne]
    case hne =>
      rintro ⟨ha, hb, hc2, hd2⟩
      rcases hzero with hz | hz | hz | hz <;> omega
  refine ⟨hcrop, ?_, ?_⟩ <;>
    simp [decode_one_frame, hs, hd, decodeOneFrameCore, hget, hok, hcrop]

/-- C7 witness: on the concrete `handler7`/`fr7` the amended statement
evaluates as proved. -/
theorem avif_C7_witness :
    cropDims fr7 fr7.width fr7.height = (fr7.width, fr7.height) ∧
    (decode_one_frame handler7).1 = true ∧
    (decode_one_frame handler7).2.1.m_current_image =
      some ⟨(rotDims fr7 fr7.width fr7.height).1, (rotDims fr7 fr7.width fr7.height).2,
            selectResultFormat fr7.depth fr7.hasAlphaPlane fr7.yuv400⟩ :=
  avif_C7_amended handler7 ⟨[fr7], 0⟩ fr7 rfl rfl rfl rfl rfl (Or.inl rfl)

/-- On a decodable frame, the body of `decode_one_frame` succeeds. -/
theorem decodeOneFrameCore_fst (h : Handler) (d : Decoder) (f : Frame)
    (hget : d.frames[d.imageIndex.toNat]? = some f) (hok : f.frameOk = true) :
    (decodeOneFrameCore h d).1 = true := by
  simp [decodeOneFrameCore, hget, hok]

/-- On a decodable frame, the shared decode tail succeeds. -/
theorem finishDecode_fst (h : Handler) (d : Decoder) (f : Frame)
    (hget : d.frames[d.imageIndex.toNat]? = some f) (hok : f.frameOk = true) :
    (finishDecode h d).1 = true := by
  have hb := decodeOneFrameCore_fst h d f hget hok
  unfold finishDecode
  rcases hcd : decodeOneFrameCore h d with ⟨b, h3, al⟩
  rw [hcd] at hb
  cases b
  · simp at hb
  · rfl

/-- After a successful decoding step onto a frame that matches the container
dimensions and decodes, the shared jump tail succeeds, installs the stepped
decoder, and preserves parse state and container dimensions. -/
theorem jumpFinish_good (h1 : Handler) (d2 : Decoder) (f : Frame)
    (hget : d2.frames[d2.imageIndex.toNat]? = some f) (hok : f.frameOk = true)
    (hfw : f.width = h1.m_container_width) (hfh : f.height = h1.m_container_height) :
    (jumpFinish h1 (true, d2)).1 = true ∧
    (jumpFinish h1 (true, d2)).2.1.m_parseState = h1.m_parseState ∧
    (jumpFinish h1 (true, d2)).2.1.m_decoder = some d2 ∧
    (jumpFinish h1 (true, d2)).2.1.m_container_width = h1.m_container_width ∧
    (jumpFinish h1 (true, d2)).2.1.m_container_height = h1.m_container_height := by
  have hJ : jumpFinish h1 (true, d2) = finishDecode { h1 with m_decoder := some d2 } d2 := by
    simp [jumpFinish, hget, hfw, hfh]
  rw [hJ]
  have hfst := finishDecode_fst { h1 with m_decoder := some d2 } d2 f hget hok
  obtain ⟨hst, hdc, hw, hh⟩ := (finishDecode_state _ d2).2 hfst
  exact ⟨hfst, by rw [hst], by rw [hdc], by rw [hw], by rw [hh]⟩

/-- `jumpToImage`'s core on an in-range index of an all-good animation:
succeeds and repositions the decoder on frame `n`. -/
theorem jumpToImageCore_good (h : Handler) (d : Decoder) (n : Int)
    (hn2 : 2 ≤ d.frames.length) (h0 : 0 ≤ n) (hlt : n < (d.frames.length : Int))
    (hgood : ∀ f ∈ d.frames, f.decodeOk = true ∧ f.frameOk = true ∧
             f.width = h.m_container_width ∧ f.height = h.m_container_height) :
    (jumpToImageCore h d n).1 = true ∧
    (jumpToImageCore h d n).2.1.m_parseState = h.m_parseState ∧
    (jumpToImageCore h d n).2.1.m_decoder = some { d with imageIndex := n } ∧
    (jumpToImageCore h d n).2.1.m_container_width = h.m_container_width ∧
    (jumpToImageCore h d n).2.1.m_container_height = h.m_container_height := by
  have hlt2 : n.toNat < d.frames.length := by omega
  obtain ⟨f, hget, hmem⟩ : ∃ f, d.frames[n.toNat]? = some f ∧ f ∈ d.frames :=
    ⟨_, List.getElem?_eq_getElem hlt2, List.getElem_mem hlt2⟩
  have hnth : decoderNthImage d n = (true, { d with imageIndex := n }) := by
    simp only [decoderNthImage]
    rw [if_neg (by omega), hget]
    simp [(hgood f hmem).1]
  unfold jumpToImageCore
  rw [if_neg (by omega), if_neg (by omega), if_neg (by omega), hnth]
  exact jumpFinish_good h { d with imageIndex := n } f hget (hgood f hmem).2.1
    (hgood f hmem).2.2.1 (hgood f hmem).2.2.2

/-- `jumpToNextImage`'s core on an all-good animation whose cursor sits on
the last frame: it wraps around, succeeding with the decoder on frame 0. -/
theorem jumpToNextImageCore_wrap (h : Handler) (d : Decoder)
    (hn2 : 2 ≤ d.frames.length)
    (hidx : (d.frames.length : Int) - 1 ≤ d.imageIndex)
    (hgood : ∀ f ∈ d.frames, f.decodeOk = true ∧ f.frameOk = true ∧
             f.width = h.m_container_width ∧ f.height = h.m_container_height) :
    (jumpToNextImageCore h d).1 = true ∧
    (jumpToNextImageCore h d).2.1.m_parseState = h.m_parseState ∧
    (jumpToNextImageCore h d).2.1.m_decoder = some { d with imageIndex := 0 } := by
  have hlt0 : (0 : Nat) < d.frames.length := by omega
  obtain ⟨f0, hget0, hmem0⟩ : ∃ f, d.frames[(0 : Nat)]? = some f ∧ f ∈ d.frames :=
    ⟨_, List.getElem?_eq_getElem hlt0, List.getElem_mem hlt0⟩
  have hni : decoderNextImage (decoderReset d) = (true, { d with imageIndex := 0 }) := by
    simp [decoderNextImage, decoderReset, hget0, (hgood f0 hmem0).1]
  have hcore : jumpToNextImageCore h d = jumpFinish h (true, { d with imageIndex := 0 }) := by
    unfold jumpToNextImageCore
    rw [if_neg (by omega)]
    dsimp only
    rw [if_pos hidx, hni]
  rw [hcore]
  obtain ⟨j1, j2, j3, _, _⟩ := jumpFinish_good h { d with imageIndex := 0 } f0 hget0
    (hgood f0 hmem0).2.1 (hgood f0 hmem0).2.2.1 (hgood f0 hmem0).2.2.2
  exact ⟨j1, j2, j3⟩

/-- On a parsed handler, `imageCount` reports the decoder's frame count. -/
theorem imageCount_success (h : Handler) (c : Container) (d : Decoder)
    (hs : h.m_parseState = .success) (hd : h.m_decoder = some d)
    (h1 : 1 ≤ d.frames.length) :
    imageCount h c = ((d.frames.length : Int), h) := by
  simp only [imageCount, ensureParsed, hs, hd]
  rw [if_pos h1]

/-- C6: on a parsed multi-frame container (`imageCount ≥ 2`) whose frames all
decode and match the container's declared dimensions,
`jumpToImage (imageCount - 1)` succeeds, and a subsequent `jumpToNextImage`
succeeds and wraps the decoder around to frame 0 (`currentImageNumber`
returns 0). -/
theorem avif_C6 (h : Handler) (c : Container) (d : Decoder)
    (hs : h.m_parseState = .success) (hd : h.m_decoder = some d)
    (hn : 2 ≤ d.frames.length)
    (hall : ∀ f ∈ d.frames, f.decodeOk = true ∧ f.frameOk = true ∧
            f.width = h.m_container_width ∧ f.height = h.m_container_height) :
    2 ≤ (imageCount h c).1 ∧
    (jumpToImage h c ((imageCount h c).1 - 1)).1 = true ∧
    (jumpToNextImage (jumpToImage h c ((imageCount h c).1 - 1)).2.1 c).1 = true ∧
    currentImageNumber
      (jumpToNextImage (jumpToImage h c ((imageCount h c).1 - 1)).2.1 c).2.1 = 0 := by
  have hcnt : imageCount h c = ((d.frames.length : Int), h) :=
    imageCount_success h c d hs hd (by omega)
  have hJ1eq : jumpToImage h c ((imageCount h c).1 - 1)
      = jumpToImageCore h d ((d.frames.length : Int) - 1) := by
    rw [hcnt]
    simp only [jumpToImage, ensureParsed, hs, hd]
  obtain ⟨j1fst, j1st, j1dec, j1w, j1h⟩ :=
    jumpToImageCore_good h d ((d.frames.length : Int) - 1) hn (by omega) (by omega) hall
  have hst2 : (jumpToImageCore h d ((d.frames.length : Int) - 1)).2.1.m_parseState
      = .success := by rw [j1st, hs]
  have hJ2eq : jumpToNextImage (jumpToImage h c ((imageCount h c).1 - 1)).2.1 c
      = jumpToNextImageCore (jumpToImageCore h d ((d.frames.length : Int) - 1)).2.1
          { d with imageIndex := (d.frames.length : Int) - 1 } := by
    rw [hJ1eq]
    simp only [jumpToNextImage, ensureParsed, hst2, j1dec]
  have hgood2 : ∀ f ∈ ({ d with imageIndex := (d.frames.length : Int) - 1 } : Decoder).frames,
      f.decodeOk = true ∧ f.frameOk = true ∧
      f.width = (jumpToImageCore h d ((d.frames.length : Int) - 1)).2.1.m_container_width ∧
      f.height = (jumpToImageCore h d ((d.frames.length : Int) - 1)).2.1.m_container_height := by
    intro f hf
    obtain ⟨hx1, hx2, hx3, hx4⟩ := hall f hf
    exact ⟨hx1, hx2, by rw [hx3, j1w], by rw [hx4, j1h]⟩
  obtain ⟨j2fst, j2st, j2dec⟩ :=
    jumpToNextImageCore_wrap (jumpToImageCore h d ((d.frames.length : Int) - 1)).2.1
      { d with imageIndex := (d.frames.length : Int) - 1 } hn (le_refl _) hgood2
  have hstf : (jumpToNextImageCore (jumpToImageCore h d ((d.frames.length : Int) - 1)).2.1
      { d with imageIndex := (d.frames.length : Int) - 1 }).2.1.m_parseState = .success := by
    rw [j2st, hst2]
  refine ⟨?_, ?_, ?_, ?_⟩
  · rw [hcnt]
    show (2 : Int) ≤ (d.frames.length : Int)
    omega
  · rw [hJ1eq]
    exact j1fst
  · rw [hJ2eq]
    exact j2fst
  · rw [hJ2eq]
    simp [currentImageNumber, hstf, j2dec]

/-- C6 witness: on the parsed two-frame `handler2`, jumping to the last frame
then advancing wraps around to frame 0. -/
theorem avif_C6_witness :
    2 ≤ (imageCount handler2 container2).1 ∧
    (jumpToImage handler2 container2 ((imageCount handler2 container2).1 - 1)).1 = true ∧
    (jumpToNextImage
      (jumpToImage handler2 container2
        ((imageCount handler2 container2).1 - 1)).2.1 container2).1 = true ∧
    currentImageNumber
      (jumpToNextImage
        (jumpToImage handler2 container2
          ((imageCount handler2 container2).1 - 1)).2.1 container2).2.1 = 0 :=
  avif_C6 handler2 container2 ⟨[frameA, frameA], 0⟩ rfl rfl (by decide)
    (by
      intro f hf
      simp only [List.mem_cons, List.not_mem_nil, or_false] at hf
      rcases hf with rfl | rfl <;> exact ⟨rfl, rfl, rfl, rfl⟩)
